import Mathlib

/-!
Verification of the realtime update layer of the trading-bot dashboard:
the `useWebSocket` hook (connection lifecycle, authentication handshake,
message handling, disconnect) and the `MarketOverview` consumer
(message classification by type guards, price-update and bot-status
reconciliation), together with the pure endpoint derivation.

The embedding mirrors the JavaScript/TypeScript source:
JSON values are modelled by an inductive `Json` (numbers as `Rat`),
JS strings by Lean `String` (by `List Char` where character-level
operations are involved), and the React state of the hook by an explicit
state record with a step function over transport events.
-/

/-- A JSON value as produced by `JSON.parse`: the possible shapes of a
decoded inbound frame. Numbers are modelled as rationals. -/
inductive Json where
  | null : Json
  | bool (b : Bool) : Json
  | num (q : Rat) : Json
  | str (s : String) : Json
  | arr (elems : List Json) : Json
  | obj (fields : List (String × Json)) : Json

/-- Property lookup on a JS object: `m.k` is `undefined` (`none`) when `m`
is not an object or lacks the key. -/
def lookupField : List (String × Json) → String → Option Json
  | [], _ => none
  | (k2, v) :: rest, k => if k2 = k then some v else lookupField rest k

def getField : Json → String → Option Json
  | .obj fields, k => lookupField fields k
  | _, _ => none

/-- JS truthiness of a decoded value (`message && ...` in the guards). -/
def truthy : Json → Bool
  | .null => false
  | .bool b => b
  | .num q => decide (q ≠ 0)
  | .str s => decide (s ≠ "")
  | .arr _ => true
  | .obj _ => true

/-- The JS test of `typeof message` against the literal `object` on a
JSON-decoded value: objects, arrays and `null` all have typeof `object`. -/
def typeofObject : Json → Bool
  | .null => true
  | .arr _ => true
  | .obj _ => true
  | _ => false

/-- The JS test of `typeof v` against the literal `string` on a property
access result. -/
def isStringField : Option Json → Bool
  | some (.str _) => true
  | _ => false

/-- The JS test of `typeof v` against the literal `number` on a property
access result. -/
def isNumberField : Option Json → Bool
  | some (.num _) => true
  | _ => false

/-- `Array.isArray v` on a property access result. -/
def isArrayField : Option Json → Bool
  | some (.arr _) => true
  | _ => false

/-- Strict equality `v === s` between a property access result and a
string literal: true only when the property holds exactly that string. -/
def strictEqStr (v : Option Json) (s : String) : Bool :=
  match v with
  | some (.str s2) => s2 == s
  | _ => false

/-- Type guard `isPriceUpdateMessage` from `MarketOverview.tsx`:
truthiness of `message`, typeof `object`, type tag strictly equal to
`price_update`, `symbol` of typeof `string`, `price` of typeof `number`. -/
def isPriceUpdateMessage (m : Json) : Bool :=
  truthy m && typeofObject m && strictEqStr (getField m "type") "price_update"
    && isStringField (getField m "symbol") && isNumberField (getField m "price")

/-- Type guard `isBotStatusUpdateMessage` from `MarketOverview.tsx`:
truthiness of `message`, typeof `object`, type tag strictly equal to
`bot_status_update`, and `Array.isArray` on `statuses`. -/
def isBotStatusUpdateMessage (m : Json) : Bool :=
  truthy m && typeofObject m && strictEqStr (getField m "type") "bot_status_update"
    && isArrayField (getField m "statuses")

/-- Extraction of a string property known (by guard) to be a string. -/
def asStr : Option Json → String
  | some (.str s) => s
  | _ => ""

/-- Extraction of a numeric property known (by guard) to be a number. -/
def asNum : Option Json → Rat
  | some (.num q) => q
  | _ => 0

/-- Extraction of an array property known (by guard) to be an array. -/
def asArr : Option Json → List Json
  | some (.arr xs) => xs
  | _ => []

/-- One entry of the `marketData` state in `MarketOverview`: the
`MarketPriceResponse` interface (`symbol`, `price`) plus any extra
runtime fields the API object may carry, which the object spread
`{ ...item, price: price }` preserves. -/
structure MarketEntry where
  symbol : String
  price : Rat
  extra : List (String × Json)

/-- The `setMarketData` updater in the price-update branch:
`prevData.map(item => item.symbol === symbol ? { ...item, price: price } : item)`. -/
def applyPriceUpdate (prevData : List MarketEntry) (symbol : String) (price : Rat) :
    List MarketEntry :=
  prevData.map (fun item =>
    if item.symbol = symbol then { item with price := price } else item)

/-- The consumer-local state of `MarketOverview` that the WebSocket
effect reconciles: `marketData` and `botStatuses`. -/
structure ConsumerState where
  marketData : List MarketEntry
  botStatuses : List Json

/-- The `useEffect` body in `MarketOverview` dispatching on `lastMessage`:
price-update guard first, then bot-status guard, then the logging-only
`else if (lastMessage)` branch which leaves state unchanged. A `none`
`lastMessage` (JS `null`) fails every guard. -/
def handleLastMessage (st : ConsumerState) (lastMessage : Option Json) : ConsumerState :=
  match lastMessage with
  | none => st
  | some m =>
    if isPriceUpdateMessage m then
      { st with marketData := applyPriceUpdate st.marketData (asStr (getField m "symbol")) (asNum (getField m "price")) }
    else if isBotStatusUpdateMessage m then
      { st with botStatuses := asArr (getField m "statuses") }
    else st

/-- Outbound application frame on the transport. The authentication frame
is the serialized object with type tag `auth` and the token; consumer frames go
through `sendMessage`. -/
inductive Frame where
  | auth (token : String) : Frame
  | msg (payload : String) : Frame

/-- readyState of the underlying WebSocket object. -/
inductive SockState where
  | connecting : SockState
  | opened : SockState
  | closing : SockState
  | closed : SockState
deriving DecidableEq

/-- The state visible to the hook `useWebSocket` (part_007): the React
state (`isConnected`, `lastMessage`, `error`), the ref `ws.current`
(`hasRef`), the readyState of the socket the handlers are attached to,
the token captured by the `connect` closure, the ordered list of frames
sent on the transport, and a count of sockets created by
`new WebSocket(...)`. `lastMessage` is `none` for JS `null`; a raw
non-JSON payload is a JS string, i.e. `some (Json.str raw)`. -/
structure WSState where
  isConnected : Bool
  lastMessage : Option Json
  error : Option String
  hasRef : Bool
  sockState : SockState
  token : Option String
  sent : List Frame
  socketsCreated : Nat

/-- Hook state before any connect: all React state empty, no socket. -/
def initState : WSState :=
  { isConnected := false, lastMessage := none, error := none, hasRef := false,
    sockState := SockState.closed, token := none, sent := [], socketsCreated := 0 }

/-- Outcome of `supabase.auth.getSession()` in `connect`: either the call
(or a non-null `sessionError`) throws into the catch block, or it
resolves with `session?.access_token` (possibly absent). -/
inductive FetchResult where
  | fthrows : FetchResult
  | success (token : Option String) : FetchResult

/-- The `connect` callback of the hook (part_007): no-op when
`ws.current && ws.current.readyState === WebSocket.OPEN`; otherwise it
clears `error`, `isConnected`, `lastMessage`, then awaits the credential
fetch — on a throw it sets
`setError("Failed to get authentication token.")` and returns without
creating a socket; on success it creates the socket (readyState
CONNECTING) with the fetched token captured for the open handler. -/
def connect (st : WSState) (fetch : FetchResult) : WSState :=
  if st.hasRef ∧ st.sockState = SockState.opened then st
  else
    let st2 : WSState := { st with error := none, isConnected := false, lastMessage := none }
    match fetch with
    | FetchResult.fthrows => { st2 with error := some "Failed to get authentication token." }
    | FetchResult.success tok =>
        { st2 with hasRef := true, sockState := SockState.connecting, token := tok,
                   socketsCreated := st2.socketsCreated + 1 }

/-- Events processed by the UI event loop against the socket of the hook:
the four transport callbacks, a consumer `sendMessage` call, and a
`disconnect` call. -/
inductive Event where
  | openEvt : Event
  | messageEvt (raw : String) (parsed : Option Json) : Event
  | errorEvt : Event
  | closeEvt : Event
  | sendCall (f : Frame) : Event
  | disconnectCall : Event

/-- One event step, mirroring the handlers installed by `connect` and the
`sendMessage`/`disconnect` callbacks of part_007. The handlers are
assigned once in `connect` and never detached, so `messageEvt` updates
`lastMessage` regardless of `hasRef`:
* open: readyState becomes OPEN, `setIsConnected(true)`, `setError(null)`,
  and if a token was captured the auth frame is sent via `ws.current.send`
  (which requires the ref to still be set);
* message: `JSON.parse` success stores the parsed value, failure is caught
  and stores the raw text;
* error: `setError` with the generic message, `setIsConnected(false)`;
* close: `setIsConnected(false)` only — `lastMessage` is left untouched;
* sendCall: sends only when `ws.current && readyState === OPEN`;
* disconnect: when the ref is set, `close()` the socket, null the ref,
  `setIsConnected(false)`, `setLastMessage(null)`. -/
def step (st : WSState) (e : Event) : WSState :=
  match e with
  | Event.openEvt =>
      let st2 : WSState := { st with sockState := SockState.opened, isConnected := true, error := none }
      match st2.token with
      | some t => if st2.hasRef then { st2 with sent := st2.sent ++ [Frame.auth t] } else st2
      | none => st2
  | Event.messageEvt raw parsed =>
      match parsed with
      | some j => { st with lastMessage := some j }
      | none => { st with lastMessage := some (Json.str raw) }
  | Event.errorEvt => { st with error := some "WebSocket connection error.", isConnected := false }
  | Event.closeEvt => { st with isConnected := false, sockState := SockState.closed }
  | Event.sendCall f =>
      if st.hasRef ∧ st.sockState = SockState.opened then { st with sent := st.sent ++ [f] } else st
  | Event.disconnectCall =>
      if st.hasRef then
        { st with hasRef := false, sockState := SockState.closing, isConnected := false, lastMessage := none }
      else st

/-- Folding a list of events through `step`. -/
def runEvents (st : WSState) (evs : List Event) : WSState :=
  evs.foldl step st

/-- JS `String.prototype.startsWith`, on strings as character lists. -/
def jsStartsWith (s pre : List Char) : Bool :=
  List.isPrefixOf pre s

/-- The `backendHost.replace` step of the derivation: the anchored regex
`^https?:\/\/` removes
one leading `https://` or `http://` occurrence, if any. -/
def stripHttpScheme (s : List Char) : List Char :=
  if jsStartsWith s ("https://".data) then s.drop 8
  else if jsStartsWith s ("http://".data) then s.drop 7
  else s

/-- The URL derivation in the mount effect of the hook: the realtime
scheme is `wss://` exactly when `backendHost.startsWith` finds `https`,
and the derived URL is that scheme, then the host with its http scheme
stripped, then the logical path. -/
def deriveEndpoint (backendHost url : List Char) : List Char :=
  (if jsStartsWith backendHost ("https".data) then "wss://".data else "ws://".data)
    ++ stripHttpScheme backendHost ++ url

/-- A property that strictly equals one string literal cannot strictly
equal a different one. -/
theorem strictEqStr_false_of_true_ne (v : Option Json) (s1 s2 : String)
    (h1 : strictEqStr v s1 = true) (hne : s1 ≠ s2) : strictEqStr v s2 = false := by
  cases v with
  | none => simp [strictEqStr] at h1
  | some j =>
    cases j with
    | null => simp [strictEqStr] at h1
    | bool b => simp [strictEqStr] at h1
    | num q => simp [strictEqStr] at h1
    | arr xs => simp [strictEqStr] at h1
    | obj fs => simp [strictEqStr] at h1
    | str t =>
      simp [strictEqStr] at h1 ⊢
      subst h1
      exact hne

/-- A property whose value is not exactly the string `s` fails the strict
equality test against `s`. -/
theorem strictEqStr_false_of_ne (v : Option Json) (s : String)
    (h : v ≠ some (Json.str s)) : strictEqStr v s = false := by
  cases v with
  | none => simp [strictEqStr]
  | some j =>
    cases j with
    | null => simp [strictEqStr]
    | bool b => simp [strictEqStr]
    | num q => simp [strictEqStr]
    | arr xs => simp [strictEqStr]
    | obj fs => simp [strictEqStr]
    | str t =>
      simp [strictEqStr]
      intro hc
      exact absurd (by rw [hc]) h

/-- The two guards are mutually exclusive: a frame passing the bot-status
guard has type tag `bot_status_update`, hence fails the price guard. -/
theorem price_guard_false_of_bot_guard (m : Json)
    (hb : isBotStatusUpdateMessage m = true) : isPriceUpdateMessage m = false := by
  simp only [isBotStatusUpdateMessage, Bool.and_eq_true] at hb
  have hty := hb.1.2
  have hfalse := strictEqStr_false_of_true_ne (getField m "type") "bot_status_update"
    "price_update" hty (by decide)
  simp [isPriceUpdateMessage, hfalse]

/-- Claim C1: price-update reconciliation. Applying a price update for
symbol `S` with price `P` to the local `marketData` collection keeps the
length, maps the entry at each position to itself with only `price`
replaced by `P` when its symbol is `S` (symbol, extra fields and position
unchanged) and to itself unchanged otherwise; when no entry carries
symbol `S` the collection is unchanged — no entry is inserted. -/
theorem C1_price_update_reconciliation (l : List MarketEntry) (S : String) (P : Rat) :
    (applyPriceUpdate l S P).length = l.length ∧
    (∀ (i : Nat) (e : MarketEntry), l[i]? = some e →
      (applyPriceUpdate l S P)[i]? =
        some (if e.symbol = S then { e with price := P } else e)) ∧
    ((∀ e ∈ l, e.symbol ≠ S) → applyPriceUpdate l S P = l) := by
  refine ⟨by simp [applyPriceUpdate], ?_, ?_⟩
  · intro i e he
    simp [applyPriceUpdate, List.getElem?_map, he]
  · intro hall
    induction l with
    | nil => rfl
    | cons a as ih =>
      have ha : a.symbol ≠ S := hall a (List.mem_cons_self a as)
      have hrest : ∀ e ∈ as, e.symbol ≠ S := fun e he2 => hall e (List.mem_cons_of_mem a he2)
      have ih2 := ih hrest
      simp [applyPriceUpdate, ha] at ih2 ⊢
      exact ih2

/-- Concrete instance of claim C1: updating BTCUSDT to 105 in a two-entry
collection rewrites exactly the price of that entry and drops an update for a
symbol that is not present. -/
theorem C1_price_update_reconciliation_witness :
    (applyPriceUpdate [⟨"BTCUSDT", 100, []⟩, ⟨"ETHUSDT", 5, []⟩] "BTCUSDT" 105)[0]? =
      some ⟨"BTCUSDT", 105, []⟩ ∧
    applyPriceUpdate [⟨"BTCUSDT", 100, []⟩, ⟨"ETHUSDT", 5, []⟩] "XRPUSDT" 7 =
      [⟨"BTCUSDT", 100, []⟩, ⟨"ETHUSDT", 5, []⟩] := by
  constructor
  · have h := (C1_price_update_reconciliation
      [⟨"BTCUSDT", 100, []⟩, ⟨"ETHUSDT", 5, []⟩] "BTCUSDT" 105).2.1 0
      ⟨"BTCUSDT", 100, []⟩ (by rfl)
    simpa using h
  · exact (C1_price_update_reconciliation
      [⟨"BTCUSDT", 100, []⟩, ⟨"ETHUSDT", 5, []⟩] "XRPUSDT" 7).2.2
      (by intro e he; simp at he; rcases he with h | h <;> simp [h])

/-- Claim C3: endpoint derivation is a pure function of base host and
logical path — `http://` hosts map to `ws://` with the scheme stripped and
the path appended, `https://` hosts map to `wss://`; in particular the two
documented instances hold. -/
theorem C3_endpoint_derivation (h p : List Char) :
    deriveEndpoint ("http://".data ++ h) p = "ws://".data ++ h ++ p ∧
    deriveEndpoint ("https://".data ++ h) p = "wss://".data ++ h ++ p ∧
    deriveEndpoint "http://host:8000".data "/ws/updates".data = "ws://host:8000/ws/updates".data ∧
    deriveEndpoint "https://host".data "/ws/updates".data = "wss://host/ws/updates".data := by
  refine ⟨?_, ?_, by decide, by decide⟩
  · simp [deriveEndpoint, stripHttpScheme, jsStartsWith, List.isPrefixOf]
  · simp [deriveEndpoint, stripHttpScheme, jsStartsWith, List.isPrefixOf]

/-- Claim C4: bot-status reconciliation is snapshot-replace — for every
message passing the bot-status guard and carrying statuses array `A`, the
statuses collection of the consumer after the effect equals `A` exactly,
whatever it was before, and `marketData` is untouched. -/
theorem C4_bot_status_snapshot (st : ConsumerState) (m : Json) (A : List Json)
    (hb : isBotStatusUpdateMessage m = true)
    (hs : getField m "statuses" = some (Json.arr A)) :
    (handleLastMessage st (some m)).botStatuses = A ∧
    (handleLastMessage st (some m)).marketData = st.marketData := by
  have hp := price_guard_false_of_bot_guard m hb
  simp [handleLastMessage, hp, hb, hs, asArr]

/-- Concrete instance of claim C4: a bot-status frame replaces a
non-empty prior statuses collection by the incoming two-element array. -/
theorem C4_bot_status_snapshot_witness :
    (handleLastMessage ⟨[], [Json.null]⟩
      (some (Json.obj [("type", Json.str "bot_status_update"),
        ("statuses", Json.arr [Json.num 1, Json.num 2])]))).botStatuses
      = [Json.num 1, Json.num 2] :=
  (C4_bot_status_snapshot ⟨[], [Json.null]⟩
    (Json.obj [("type", Json.str "bot_status_update"),
      ("statuses", Json.arr [Json.num 1, Json.num 2])])
    [Json.num 1, Json.num 2] (by rfl) (by rfl)).1

/-- Claim C9: the type tag is necessary for classification — a decoded
message whose `type` field is not exactly the string `price_update` is
never classified as a price update, whatever other fields it has, and one
whose `type` field is not exactly `bot_status_update` is never classified
as a bot-status update. -/
theorem C9_type_tag_required (m : Json) :
    (getField m "type" ≠ some (Json.str "price_update") → isPriceUpdateMessage m = false) ∧
    (getField m "type" ≠ some (Json.str "bot_status_update") → isBotStatusUpdateMessage m = false) := by
  constructor
  · intro h
    simp [isPriceUpdateMessage, strictEqStr_false_of_ne (getField m "type") "price_update" h]
  · intro h
    simp [isBotStatusUpdateMessage, strictEqStr_false_of_ne (getField m "type") "bot_status_update" h]

/-- Concrete instance of claim C9: a message with a string symbol and a
numeric price but type tag `price_snapshot` fails the price guard, and a
message with a statuses array but type tag `bot_status` fails the
bot-status guard. -/
theorem C9_type_tag_required_witness :
    isPriceUpdateMessage (Json.obj [("type", Json.str "price_snapshot"),
      ("symbol", Json.str "BTCUSDT"), ("price", Json.num 100)]) = false ∧
    isBotStatusUpdateMessage (Json.obj [("type", Json.str "bot_status"),
      ("statuses", Json.arr [])]) = false := by
  constructor
  · exact (C9_type_tag_required (Json.obj [("type", Json.str "price_snapshot"),
      ("symbol", Json.str "BTCUSDT"), ("price", Json.num 100)])).1 (by simp [getField, lookupField])
  · exact (C9_type_tag_required (Json.obj [("type", Json.str "bot_status"),
      ("statuses", Json.arr [])])).2 (by simp [getField, lookupField])

/-- Claim C7: classification tests the structural guards in fixed priority
order — price guard first, then bot-status guard, then an unclassified
"other" outcome that leaves consumer state unchanged; a required field
present but wrong-typed (a string `price`, a non-array `statuses`) fails
its guard and the frame falls through; and every decoded frame, classified
or not, is still delivered to the latest-message slot by the message
handler. -/
theorem C7_classification_priority (st : ConsumerState) (m : Json) :
    (isPriceUpdateMessage m = true →
      handleLastMessage st (some m) =
        { st with marketData := applyPriceUpdate st.marketData (asStr (getField m "symbol")) (asNum (getField m "price")) }) ∧
    (isPriceUpdateMessage m = false → isBotStatusUpdateMessage m = true →
      handleLastMessage st (some m) =
        { st with botStatuses := asArr (getField m "statuses") }) ∧
    (isPriceUpdateMessage m = false → isBotStatusUpdateMessage m = false →
      handleLastMessage st (some m) = st) ∧
    (∀ s : String, getField m "price" = some (Json.str s) → isPriceUpdateMessage m = false) ∧
    (∀ j : Json, getField m "statuses" = some j → (∀ xs : List Json, j ≠ Json.arr xs) →
      isBotStatusUpdateMessage m = false) ∧
    (∀ (hs : WSState) (raw : String),
      (step hs (Event.messageEvt raw (some m))).lastMessage = some m) := by
  refine ⟨?_, ?_, ?_, ?_, ?_, ?_⟩
  · intro h1
    simp [handleLastMessage, h1]
  · intro h1 h2
    simp [handleLastMessage, h1, h2]
  · intro h1 h2
    simp [handleLastMessage, h1, h2]
  · intro s hf
    simp [isPriceUpdateMessage, isNumberField, hf]
  · intro j hf hne
    have : isArrayField (getField m "statuses") = false := by
      rw [hf]
      cases j with
      | arr xs => exact absurd rfl (hne xs)
      | null => simp [isArrayField]
      | bool b => simp [isArrayField]
      | num q => simp [isArrayField]
      | str s => simp [isArrayField]
      | obj fs => simp [isArrayField]
    simp [isBotStatusUpdateMessage, this]
  · intro hs raw
    simp [step]

/-- Concrete instance of claim C7: a frame whose `price` field is the
string `"100"` fails the price guard (wrong-typed required field), is not
a bot-status frame either, so it leaves the consumer state unchanged,
yet the message handler still delivers it to the latest-message slot. -/
theorem C7_classification_priority_witness :
    isPriceUpdateMessage (Json.obj [("type", Json.str "price_update"),
      ("symbol", Json.str "BTCUSDT"), ("price", Json.str "100")]) = false ∧
    handleLastMessage ⟨[], []⟩ (some (Json.obj [("type", Json.str "price_update"),
      ("symbol", Json.str "BTCUSDT"), ("price", Json.str "100")])) = ⟨[], []⟩ ∧
    (step initState (Event.messageEvt "f"
      (some (Json.obj [("type", Json.str "price_update"),
        ("symbol", Json.str "BTCUSDT"), ("price", Json.str "100")])))).lastMessage
      = some (Json.obj [("type", Json.str "price_update"),
        ("symbol", Json.str "BTCUSDT"), ("price", Json.str "100")]) := by
  have h := C7_classification_priority ⟨[], []⟩ (Json.obj [("type", Json.str "price_update"),
    ("symbol", Json.str "BTCUSDT"), ("price", Json.str "100")])
  have hfail := h.2.2.2.1 "100" (by rfl)
  exact ⟨hfail, h.2.2.1 hfail (by rfl), h.2.2.2.2.2 initState "f"⟩

/-- Folding events over an appended list splits into two folds. -/
theorem runEvents_append (st : WSState) (a b : List Event) :
    runEvents st (a ++ b) = runEvents (runEvents st a) b := by
  simp [runEvents, List.foldl_append]

/-- Invariant before the transport opens: as long as no open event and no
disconnect call occur, the socket never reaches readyState OPEN, so
`sendMessage` refuses every consumer send — the ref, the captured token
and the (empty) sent list are all preserved. -/
theorem no_send_before_open (evs : List Event)
    (hpre : ∀ e ∈ evs, e ≠ Event.openEvt ∧ e ≠ Event.disconnectCall) :
    ∀ st : WSState, st.hasRef = true → st.sockState ≠ SockState.opened →
      (runEvents st evs).hasRef = true ∧
      (runEvents st evs).sockState ≠ SockState.opened ∧
      (runEvents st evs).sent = st.sent ∧
      (runEvents st evs).token = st.token := by
  induction evs with
  | nil =>
    intro st h1 h2
    exact ⟨h1, h2, rfl, rfl⟩
  | cons e rest ih =>
    intro st h1 h2
    have he := hpre e (List.mem_cons_self e rest)
    have hrest : ∀ e2 ∈ rest, e2 ≠ Event.openEvt ∧ e2 ≠ Event.disconnectCall :=
      fun e2 hm => hpre e2 (List.mem_cons_of_mem e hm)
    have hstep : (step st e).hasRef = true ∧ (step st e).sockState ≠ SockState.opened ∧
        (step st e).sent = st.sent ∧ (step st e).token = st.token := by
      cases e with
      | openEvt => exact absurd rfl he.1
      | disconnectCall => exact absurd rfl he.2
      | messageEvt raw parsed =>
        cases parsed with
        | some j => exact ⟨h1, h2, rfl, rfl⟩
        | none => exact ⟨h1, h2, rfl, rfl⟩
      | errorEvt => exact ⟨h1, h2, rfl, rfl⟩
      | closeEvt =>
        refine ⟨h1, ?_, rfl, rfl⟩
        simp [step]
      | sendCall f =>
        have hguard : ¬(st.hasRef = true ∧ st.sockState = SockState.opened) :=
          fun hc => h2 hc.2
        have heq : step st (Event.sendCall f) = st := by
          simp only [step]
          exact if_neg hguard
        rw [heq]
        exact ⟨h1, h2, rfl, rfl⟩
    have hr := ih hrest (step st e) hstep.1 hstep.2.1
    have hrun : runEvents st (e :: rest) = runEvents (step st e) rest := by
      simp [runEvents]
    rw [hrun]
    exact ⟨hr.1, hr.2.1, hstep.2.2.1 ▸ hr.2.2.1, hstep.2.2.2 ▸ hr.2.2.2⟩

/-- Claim C2: authentication handshake. Starting from a `connect` whose
credential fetch succeeded with token `tok`, for any run of events in
which the transport-open event arrives and is preceded only by events
other than open and disconnect, at the completion of the open handler the
transport has carried exactly one auth frame holding the credential when
a token was obtained — necessarily before any other outbound send, since
the sent list is exactly that single frame — and no frame at all when no
token was obtained; in both cases the connection is then flagged open. -/
theorem C2_auth_handshake (tok : Option String) (pre : List Event)
    (hpre : ∀ e ∈ pre, e ≠ Event.openEvt ∧ e ≠ Event.disconnectCall) :
    (runEvents (connect initState (FetchResult.success tok)) (pre ++ [Event.openEvt])).sent
      = (match tok with | some t => [Frame.auth t] | none => []) ∧
    (runEvents (connect initState (FetchResult.success tok)) (pre ++ [Event.openEvt])).isConnected
      = true := by
  have h0 : (connect initState (FetchResult.success tok)).hasRef = true := by
    simp [connect, initState]
  have h1 : (connect initState (FetchResult.success tok)).sockState ≠ SockState.opened := by
    simp [connect, initState]
  have h2 : (connect initState (FetchResult.success tok)).sent = [] := by
    simp [connect, initState]
  have h3 : (connect initState (FetchResult.success tok)).token = tok := by
    simp [connect, initState]
  have hinv := no_send_before_open pre hpre (connect initState (FetchResult.success tok)) h0 h1
  rw [runEvents_append]
  have hsent := hinv.2.2.1.trans h2
  have htok := hinv.2.2.2.trans h3
  have href := hinv.1
  have hone : runEvents (runEvents (connect initState (FetchResult.success tok)) pre)
      [Event.openEvt]
      = step (runEvents (connect initState (FetchResult.success tok)) pre) Event.openEvt := rfl
  rw [hone]
  cases tok with
  | some t =>
    constructor
    · simp [step, htok, href, hsent]
    · simp [step, htok, href]
  | none =>
    constructor
    · simp [step, htok, hsent]
    · simp [step, htok]

/-- Concrete instance of claim C2: with token `tok123` and an inbound
frame arriving before the open event, the open handler has sent exactly
the auth frame; with no token, nothing is sent. -/
theorem C2_auth_handshake_witness :
    (runEvents (connect initState (FetchResult.success (some "tok123")))
      ([Event.messageEvt "ping" none] ++ [Event.openEvt])).sent = [Frame.auth "tok123"] ∧
    (runEvents (connect initState (FetchResult.success none))
      ([] ++ [Event.openEvt])).sent = [] := by
  constructor
  · exact (C2_auth_handshake (some "tok123") [Event.messageEvt "ping" none]
      (by intro e he; simp at he; subst he; exact ⟨by simp, by simp⟩)).1
  · exact (C2_auth_handshake none [] (by intro e he; simp at he)).1

/-- Claim C5: decode failure is non-fatal. When `JSON.parse` of an inbound
frame fails, the catch branch stores the raw frame text as-is in the
latest-message slot and nothing else changes: the connection flag stays
true, the error slot, the ref, the socket state and the sent list are
untouched (and, the handler being a total function, no exception
escapes). -/
theorem C5_decode_failure_nonfatal (st : WSState) (raw : String)
    (hopen : st.isConnected = true) :
    (step st (Event.messageEvt raw none)).lastMessage = some (Json.str raw) ∧
    (step st (Event.messageEvt raw none)).isConnected = true ∧
    (step st (Event.messageEvt raw none)).error = st.error ∧
    (step st (Event.messageEvt raw none)).sockState = st.sockState ∧
    (step st (Event.messageEvt raw none)).sent = st.sent := by
  refine ⟨rfl, ?_, rfl, rfl, rfl⟩
  simpa [step] using hopen

/-- Concrete instance of claim C5: a non-JSON frame `hello` arriving on an
open connection is stored verbatim and the status stays connected. -/
theorem C5_decode_failure_nonfatal_witness :
    (step { initState with isConnected := true } (Event.messageEvt "hello" none)).lastMessage
      = some (Json.str "hello") ∧
    (step { initState with isConnected := true } (Event.messageEvt "hello" none)).isConnected
      = true := by
  have h := C5_decode_failure_nonfatal { initState with isConnected := true } "hello" (by rfl)
  exact ⟨h.1, h.2.1⟩

/-- Claim C6: a hard failure of the credential fetch aborts the connection
attempt. Unless `connect` is the already-open no-op (in which case the
fetch never runs), a `connect` whose session call throws sets `lastError`
to the failure message, creates no socket, keeps the ref as it was, and —
`connect` being a total function whose catch block swallows the throw —
propagates no exception to the caller. -/
theorem C6_fetch_failure_aborts (st : WSState)
    (hnotopen : ¬(st.hasRef = true ∧ st.sockState = SockState.opened)) :
    (connect st FetchResult.fthrows).error = some "Failed to get authentication token." ∧
    (connect st FetchResult.fthrows).socketsCreated = st.socketsCreated ∧
    (connect st FetchResult.fthrows).hasRef = st.hasRef ∧
    (connect st FetchResult.fthrows).sockState = st.sockState := by
  have heq : connect st FetchResult.fthrows =
      { st with error := some "Failed to get authentication token.",
                isConnected := false, lastMessage := none } := by
    simp only [connect]
    rw [if_neg hnotopen]
  rw [heq]
  exact ⟨rfl, rfl, rfl, rfl⟩

/-- Concrete instance of claim C6: a throwing credential fetch from the
initial state records the error and opens nothing. -/
theorem C6_fetch_failure_aborts_witness :
    (connect initState FetchResult.fthrows).error
      = some "Failed to get authentication token." ∧
    (connect initState FetchResult.fthrows).socketsCreated = 0 := by
  have h := C6_fetch_failure_aborts initState (by simp [initState])
  exact ⟨h.1, h.2.1⟩

/-- Counterexample to claim C8 as stated: `disconnect` closes the socket
and nulls the ref, but never detaches the handlers installed by
`connect`, so when the underlying socket object emits a message event
after the disconnect, the still-attached `onmessage` handler runs and the
frame is delivered to the latest-message slot: starting from a connected
hook, after `disconnect()` the latest-message slot is `null`, yet one
further message event overwrites it with the late frame. -/
theorem C8_counterexample_not_detached :
    (step (runEvents (connect initState (FetchResult.success none)) [Event.openEvt])
      Event.disconnectCall).isConnected = false ∧
    (step (runEvents (connect initState (FetchResult.success none)) [Event.openEvt])
      Event.disconnectCall).lastMessage = none ∧
    (step (step (runEvents (connect initState (FetchResult.success none)) [Event.openEvt])
      Event.disconnectCall) (Event.messageEvt "late" (some (Json.str "late")))).lastMessage
      = some (Json.str "late") := by
  refine ⟨rfl, rfl, rfl⟩

/-- Claim C8 (amended): after `disconnect()` with a live transport handle
the status is idle (`isConnected = false`), the handle is released and
the latest-message slot is cleared; however the handlers are not
detached, so an inbound message event that the underlying socket object
still emits after the close is still delivered to the latest-message
slot. Consumer sends are nevertheless impossible after disconnect, the
ref being null. -/
theorem C8_disconnect_idle_not_detached (st : WSState) (href : st.hasRef = true) :
    (step st Event.disconnectCall).isConnected = false ∧
    (step st Event.disconnectCall).hasRef = false ∧
    (step st Event.disconnectCall).lastMessage = none ∧
    (∀ (raw : String) (j : Json),
      (step (step st Event.disconnectCall) (Event.messageEvt raw (some j))).lastMessage
        = some j) ∧
    (∀ f : Frame, step (step st Event.disconnectCall) (Event.sendCall f)
        = step st Event.disconnectCall) := by
  have heq : step st Event.disconnectCall =
      { st with hasRef := false, sockState := SockState.closing,
                isConnected := false, lastMessage := none } := by
    simp only [step]
    rw [if_pos href]
  refine ⟨by rw [heq], by rw [heq], by rw [heq], fun raw j => rfl, fun f => ?_⟩
  rw [heq]
  simp [step]

/-- Concrete instance of the amended claim C8: disconnecting a connected
hook yields idle status, and a late message event is still delivered. -/
theorem C8_disconnect_idle_not_detached_witness :
    (step { initState with hasRef := true, isConnected := true, sockState := SockState.opened } Event.disconnectCall).isConnected = false ∧
    (step (step { initState with hasRef := true, isConnected := true, sockState := SockState.opened } Event.disconnectCall) (Event.messageEvt "x" (some Json.null))).lastMessage = some Json.null := by
  have h := C8_disconnect_idle_not_detached
    { initState with hasRef := true, isConnected := true, sockState := SockState.opened }
    (by rfl)
  exact ⟨h.1, h.2.2.2.1 "x" Json.null⟩

/-- Claim C10: an explicit `disconnect()` with a live transport handle
blanks the latest-message slot and clears the connected flag, in contrast
to the transport close handler, which only clears the connected flag and
always leaves the latest-message slot untouched. -/
theorem C10_disconnect_blanks_last_message (st : WSState) (href : st.hasRef = true) :
    (step st Event.disconnectCall).lastMessage = none ∧
    (step st Event.disconnectCall).isConnected = false ∧
    (∀ st2 : WSState, (step st2 Event.closeEvt).lastMessage = st2.lastMessage ∧
      (step st2 Event.closeEvt).isConnected = false) := by
  have heq : step st Event.disconnectCall =
      { st with hasRef := false, sockState := SockState.closing,
                isConnected := false, lastMessage := none } := by
    simp only [step]
    rw [if_pos href]
  exact ⟨by rw [heq], by rw [heq], fun st2 => ⟨rfl, rfl⟩⟩

/-- Concrete instance of claim C10: disconnecting a hook holding a last
message blanks the slot, while a transport close leaves it in place. -/
theorem C10_disconnect_blanks_last_message_witness :
    (step { initState with hasRef := true, lastMessage := some Json.null } Event.disconnectCall).lastMessage = none ∧
    (step { initState with hasRef := true, lastMessage := some Json.null } Event.closeEvt).lastMessage = some Json.null := by
  have h := C10_disconnect_blanks_last_message
    { initState with hasRef := true, lastMessage := some Json.null } (by rfl)
  exact ⟨h.1, (h.2.2 { initState with hasRef := true, lastMessage := some Json.null }).1⟩
